import Mathlib

/-!
Formal model of the `vda5050_vehicle_simulator` crate.

The Rust source operates on `f32` values; following the note in the specification
that "a full-precision recomputation is acceptable", every floating-point
quantity is modelled by a real number (`ℝ`) with exact arithmetic, and every
decimal literal of the source denotes the corresponding rational real.
Timestamps compared at whole-second resolution are modelled as integers (`ℤ`).
Rust code that can panic (out-of-bounds indexing / `usize` underflow) is
modelled by `Option`-returning functions, `none` standing for the panic.
-/

namespace VdaSim

open Classical

noncomputable section

/-- Modelled from the spec: `ActionParameterValue` from
`protocol/vda_2_0_0/vda5050_2_0_0_action.rs` (file present in src):
an untagged sum over integer | float | string. -/
inductive ActionParameterValue where
  | int (i : ℤ)
  | float (f : ℝ)
  | str (s : String)
  deriving DecidableEq

/-- `ActionParameter` from `vda5050_2_0_0_action.rs`: key/value pair. -/
structure ActionParameter where
  key : String
  value : ActionParameterValue
  deriving DecidableEq

/-- `BlockingType` from `vda5050_2_0_0_action.rs`. -/
inductive BlockingType where
  | none
  | soft
  | hard
  deriving DecidableEq

/-- `Action` from `vda5050_2_0_0_action.rs`. -/
structure Action where
  action_type : String
  action_id : String
  action_description : Option String
  blocking_type : BlockingType
  action_parameters : Option (List ActionParameter)

/-- Modelled from the spec: `ControlPoint` of a `Trajectory` from
`protocol/vda5050_common.rs` (file not in src/): `x, y`, optional
`orientation` (radians), optional `weight` (default 1.0), as used in
`utils.rs`. -/
structure ControlPoint where
  x : ℝ
  y : ℝ
  weight : Option ℝ
  orientation : Option ℝ

/-- Modelled from the spec: `Trajectory` (NURBS) from
`protocol/vda5050_common.rs` (file not in src/): integer degree d ≥ 1 (an
`i64` in the source, used only through `as usize`; modelled as `Nat`),
`knot_vector` (floats, length = n + d + 1) and `control_points`. -/
structure Trajectory where
  degree : Nat
  knot_vector : List ℝ
  control_points : List ControlPoint

/-- Modelled from the spec: `NodePosition` from `protocol/vda5050_common.rs`
(file not in src/), fields per spec §3 and the tests. -/
structure NodePosition where
  x : ℝ
  y : ℝ
  theta : Option ℝ
  allowed_deviation_xy : Option ℝ
  allowed_deviation_theta : Option ℝ
  map_id : String
  map_description : Option String

/-- Modelled from the spec: `AgvPosition` from `protocol/vda5050_common.rs`
(file not in src/): `x, y`, `theta`, `position_initialized`, `map_id`,
optional deviation/description/localization score. -/
structure AgvPosition where
  x : ℝ
  y : ℝ
  position_initialized : Bool
  theta : ℝ
  map_id : String
  deviation_range : Option ℝ
  map_description : Option String
  localization_score : Option ℝ

/-- Modelled from the spec: `Node` of an `Order` from
`protocol/vda_2_0_0/vda5050_2_0_0_order.rs` (file not in src/); fields as
constructed in the tests of the repository. `sequence_id` is a non-negative
integer, modelled as `Nat`. -/
structure Node where
  node_id : String
  sequence_id : Nat
  node_description : Option String
  released : Bool
  node_position : Option NodePosition
  actions : List Action

/-- Modelled from the spec: `Edge` of an `Order` from
`vda5050_2_0_0_order.rs` (file not in src/); fields as constructed in the
tests of the repository. -/
structure Edge where
  edge_id : String
  sequence_id : Nat
  edge_description : Option String
  released : Bool
  start_node_id : String
  end_node_id : String
  max_speed : Option ℝ
  max_height : Option ℝ
  min_height : Option ℝ
  orientation : Option ℝ
  orientation_type : Option String
  direction : Option String
  rotation_allowed : Option Bool
  max_rotation_speed : Option ℝ
  length : Option ℝ
  trajectory : Option Trajectory
  actions : List Action

/-- Modelled from the spec: `Order` from `vda5050_2_0_0_order.rs`
(file not in src/): header fields, `order_id`, `order_update_id`
(non-negative integer), ordered `nodes` and `edges`. -/
structure Order where
  header_id : Nat
  timestamp : String
  version : String
  manufacturer : String
  serial_number : String
  order_id : String
  order_update_id : Nat
  zone_set_id : Option String
  nodes : List Node
  edges : List Edge

/-- `InstantActions` from `vda5050_2_0_0_instant_actions.rs`. -/
structure InstantActions where
  header_id : Nat
  timestamp : String
  version : String
  manufacturer : String
  serial_number : String
  actions : List Action

/-- `ConnectionState` from `vda5050_2_0_0_connection.rs`. -/
inductive ConnectionState where
  | online
  | offline
  | connectionBroken
  deriving DecidableEq

/-- `Connection` from `vda5050_2_0_0_connection.rs`. -/
structure Connection where
  header_id : Nat
  timestamp : String
  version : String
  manufacturer : String
  serial_number : String
  connection_state : ConnectionState

/-- Modelled from the spec: `ActionStatus` from
`vda5050_2_0_0_state.rs` (file not in src/). -/
inductive ActionStatus where
  | waiting
  | initializing
  | running
  | paused
  | finished
  | failed
  deriving DecidableEq

/-- Modelled from the spec: `ActionState` from `vda5050_2_0_0_state.rs`
(file not in src/); fields as constructed in `vehicle_simulator.rs`. -/
structure ActionState where
  action_id : String
  action_status : ActionStatus
  action_type : Option String
  result_description : Option String
  action_description : Option String

/-- Modelled from the spec: `NodeState` from `vda5050_2_0_0_state.rs`
(file not in src/): projection of an order node. -/
structure NodeState where
  node_id : String
  sequence_id : Nat
  released : Bool
  node_description : Option String
  node_position : Option NodePosition

/-- Modelled from the spec: `EdgeState` from `vda5050_2_0_0_state.rs`
(file not in src/): projection of an order edge. -/
structure EdgeState where
  edge_id : String
  sequence_id : Nat
  released : Bool
  edge_description : Option String
  trajectory : Option Trajectory

/-- Modelled from the spec: `OperatingMode` (default AUTOMATIC). -/
inductive OperatingMode where
  | automatic
  | semiautomatic
  | manual
  | service
  | teachin
  deriving DecidableEq

/-- Modelled from the spec: `BatteryState` (charge=100, charging=false
defaults). -/
structure BatteryState where
  battery_charge : ℝ
  battery_voltage : Option ℝ
  battery_health : Option ℝ
  charging : Bool
  reach : Option ℝ

/-- Modelled from the spec: `EStop` of `SafetyState` (e_stop=NONE default). -/
inductive EStop where
  | autoack
  | manual
  | remote
  | none
  deriving DecidableEq

/-- Modelled from the spec: `SafetyState` (e_stop=NONE,
field_violation=false). -/
structure SafetyState where
  e_stop : EStop
  field_violation : Bool

/-- Modelled from the spec: `Velocity` (optional in state/visualization). -/
structure Velocity where
  vx : Option ℝ
  vy : Option ℝ
  omega : Option ℝ

/-- Modelled from the spec: `State` from `vda5050_2_0_0_state.rs` (file not
in src/); all fields written or read by `vehicle_simulator.rs` are present.
The `information[]`, `loads[]` and `errors[]` lists are omitted: no modelled
operation ever creates or reads an entry of them (they stay the empty lists
of `create_initial_state`). -/
structure State where
  header_id : Nat
  timestamp : String
  version : String
  manufacturer : String
  serial_number : String
  driving : Bool
  distance_since_last_node : Option ℝ
  operating_mode : OperatingMode
  node_states : List NodeState
  edge_states : List EdgeState
  last_node_id : String
  order_id : String
  order_update_id : Nat
  last_node_sequence_id : Nat
  action_states : List ActionState
  battery_state : BatteryState
  safety_state : SafetyState
  paused : Option Bool
  new_base_request : Option Bool
  agv_position : Option AgvPosition
  velocity : Option Velocity
  zone_set_id : Option String

/-- `Visualization` from `vda5050_2_0_0_visualization.rs`. -/
structure Visualization where
  header_id : Nat
  timestamp : String
  version : String
  manufacturer : String
  serial_number : String
  agv_position : Option AgvPosition
  velocity : Option Velocity

/-- `MqttBrokerConfig` from `config.rs`. -/
structure MqttBrokerConfig where
  host : String
  port : String
  vda_interface : String

/-- `VehicleConfig` from `config.rs`. -/
structure VehicleConfig where
  manufacturer : String
  serial_number : String
  vda_version : String
  vda_full_version : String

/-- `Settings` from `config.rs`. `action_time` is an `f32` in the source but
its only engine use is the cast `action_time as i64` in
`is_action_in_progress`; the field models that truncated whole-second
value directly as `ℤ`. -/
structure Settings where
  action_time : ℤ
  speed : ℝ
  robot_count : Nat
  state_frequency : Nat
  visualization_frequency : Nat
  map_id : String

/-- `Config` from `config.rs`. -/
structure Config where
  mqtt_broker : MqttBrokerConfig
  vehicle : VehicleConfig
  settings : Settings

/-! ## Geometry kernel: `utils.rs` -/

/-- `get_distance` from `utils.rs`: Euclidean distance. -/
def get_distance (x1 y1 x2 y2 : ℝ) : ℝ :=
  Real.sqrt ((x1 - x2) ^ 2 + (y1 - y2) ^ 2)

/-- Four-quadrant arctangent, the real-number semantics of `f32::atan2`
(used by `iterate_position` and the NURBS stepping in `utils.rs`).
`atan2 0 0 = 0` as for IEEE `atan2(+0, +0)`. -/
def atan2 (y x : ℝ) : ℝ :=
  if 0 < x then Real.arctan (y / x)
  else if x < 0 ∧ 0 ≤ y then Real.arctan (y / x) + Real.pi
  else if x < 0 ∧ y < 0 then Real.arctan (y / x) - Real.pi
  else if x = 0 ∧ 0 < y then Real.pi / 2
  else if x = 0 ∧ y < 0 then -(Real.pi / 2)
  else 0

/-- `iterate_position` from `utils.rs`: one straight step of length `speed`
from the current point toward the target, returning `(x, y, θ)`. -/
def iterate_position (current_x current_y target_x target_y speed : ℝ) :
    ℝ × ℝ × ℝ :=
  let angle := atan2 (target_y - current_y) (target_x - current_x)
  (current_x + speed * Real.cos angle, current_y + speed * Real.sin angle,
    angle)

/-- One level `k` of the Cox-de Boor recursion of `basis_functions` in
`utils.rs`: from the array `b` of the previous level (as a function on indices)
produce the `temp` array.  `temp` starts as all zeros and only indices
`span - k ≤ j ≤ span` with `j < n` are assigned; each assigned entry is the
sum of a left term (skipped when `basis[j] = 0` or its denominator is 0) and
a right term (skipped when `j ≥ n - 1`, `basis[j+1] = 0` or its denominator
is 0).  Out-of-range knot reads cannot occur here: `j < n` and `k ≤ degree`
give `j + k + 1 ≤ n + degree = |U| - 1`. -/
def basis_level (U : List ℝ) (u : ℝ) (n span k : Nat) (b : Nat → ℝ) :
    Nat → ℝ := fun j =>
  if span - k ≤ j ∧ j ≤ span ∧ j < n then
    (if b j ≠ 0 then
      (if U.getD (j + k) 0 - U.getD j 0 ≠ 0 then
        b j * ((u - U.getD j 0) / (U.getD (j + k) 0 - U.getD j 0))
      else 0)
    else 0)
    +
    (if j + 1 < n ∧ b (j + 1) ≠ 0 then
      (if U.getD (j + k + 1) 0 - U.getD (j + 1) 0 ≠ 0 then
        b (j + 1) *
          ((U.getD (j + k + 1) 0 - u) / (U.getD (j + k + 1) 0 - U.getD (j + 1) 0))
      else 0)
    else 0)
  else 0

/-- `basis_functions` from `utils.rs` (Cox-de Boor).  `none` models a Rust
panic: `usize` underflow computing `n = |U| - degree - 1` or
`span = |U| - degree - 2` or `span - k`, and the out-of-bounds write
`basis[span] = 1.0` when `span ≥ n`.  The span search takes the first
`i ∈ [degree, |U| - 2]` with `U[i] ≤ u < U[i+1]` (defaulting to `degree`),
then `span = |U| - degree - 2` overrides it when `u` is at or past the final
knot. -/
def basis_functions (degree : Nat) (U : List ℝ) (u : ℝ) :
    Option (List ℝ) :=
  if U.length < degree + 1 then none
  else
    let n := U.length - degree - 1
    let span0 := ((List.range' degree (U.length - 1 - degree)).find? fun i =>
      decide (U.getD i 0 ≤ u ∧ u < U.getD (i + 1) 0)).getD degree
    if U.getD (U.length - 1) 0 ≤ u ∧ U.length < degree + 2 then none
    else
      let span := if U.getD (U.length - 1) 0 ≤ u then U.length - degree - 2
        else span0
      if n ≤ span then none
      else if span < degree then none
      else
        let b0 : Nat → ℝ := fun j => if j = span then 1 else 0
        let bfin := (List.range' 1 degree).foldl
          (fun b k => basis_level U u n span k b) b0
        some ((List.range n).map bfin)

/-- Accumulator of the weighted-sum loops of `evaluate_nurbs_with_tangent`
in `utils.rs`. -/
structure NurbsAcc where
  x : ℝ
  y : ℝ
  theta : ℝ
  total_weight : ℝ
  theta_weight_sum : ℝ
  has_explicit_theta : Bool

/-- One iteration of the position loop of `evaluate_nurbs_with_tangent`:
entries with `basis[i] > 0` contribute `basis[i] · weight` (weight default
1.0) times the control point. -/
def nurbs_acc_step (basis : List ℝ) (cps : List ControlPoint)
    (a : NurbsAcc) (i : Nat) : NurbsAcc :=
  if 0 < basis.getD i 0 then
    match cps.get? i with
    | some cp =>
      let ww := basis.getD i 0 * cp.weight.getD 1
      let a1 := { a with
        x := a.x + cp.x * ww, y := a.y + cp.y * ww,
        total_weight := a.total_weight + ww }
      match cp.orientation with
      | some th =>
        { a1 with
          theta := a1.theta + th * ww,
          theta_weight_sum := a1.theta_weight_sum + ww,
          has_explicit_theta := true }
      | none => a1
    | none => a
  else a

/-- The position block of `evaluate_nurbs_with_tangent` (`utils.rs` lines
91-124), which the source also repeats verbatim (without the orientation
accumulators) for the tangent sample: basis at `u`, weighted sum over the
entries with positive basis value, then normalisation when the weight sums
are positive.  Returns `(x, y, θ_explicit, has_explicit_θ)`.  `none` models
a panic: a failing `basis_functions` call, or `control_points[i]` out of
bounds for a contributing index `i`. -/
def nurbs_point_theta (traj : Trajectory) (u : ℝ) :
    Option (ℝ × ℝ × ℝ × Bool) :=
  match basis_functions traj.degree traj.knot_vector u with
  | none => none
  | some basis =>
    if ∀ i, i < basis.length → 0 < basis.getD i 0 →
        i < traj.control_points.length then
      let a := (List.range basis.length).foldl
        (nurbs_acc_step basis traj.control_points)
        ⟨0, 0, 0, 0, 0, false⟩
      let r := if 0 < a.total_weight then
          { a with
            x := a.x / a.total_weight, y := a.y / a.total_weight,
            theta := if a.has_explicit_theta ∧ 0 < a.theta_weight_sum then
              a.theta / a.theta_weight_sum else a.theta }
        else a
      some (r.x, r.y, r.theta, r.has_explicit_theta)
    else none

/-- `evaluate_nurbs_with_tangent` from `utils.rs`: position (and explicit
orientation) at `u`, then a second position evaluation at
`min (u + 0.001) 1` for the tangent.  Returns
`(x, y, θ_explicit, tangent_x, tangent_θ, has_explicit_θ)`. -/
def evaluate_nurbs_with_tangent (traj : Trajectory) (u : ℝ) :
    Option (ℝ × ℝ × ℝ × ℝ × ℝ × Bool) :=
  match nurbs_point_theta traj u with
  | none => none
  | some (x, y, theta, hasTheta) =>
    match nurbs_point_theta traj (min (u + 0.001) 1) with
    | none => none
    | some (x_next, y_next, _, _) =>
      some (x, y, theta, x_next - x, atan2 (y_next - y) (x_next - x),
        hasTheta)

/-- `find_closest_parameter` from `utils.rs`: sample `u ∈ {0, 1/100, …, 1}`
and keep the sample with minimal distance to `(current_x, current_y)`.  The
running minimum starts at `f32::INFINITY`, modelled as `none` (every finite
distance compares below it). -/
def find_closest_parameter (traj : Trajectory) (current_x current_y : ℝ) :
    Option ℝ :=
  ((List.range 101).foldl (fun acc i =>
    match acc with
    | none => none
    | some (closest_u, min_distance) =>
      match evaluate_nurbs_with_tangent traj ((i : ℝ) / 100) with
      | none => none
      | some (x, y, _, _, _, _) =>
        let d := get_distance current_x current_y x y
        match min_distance with
        | none => some ((i : ℝ) / 100, some d)
        | some md => if d < md then some ((i : ℝ) / 100, some d)
          else some (closest_u, some md)) (some (0, none))).map (·.1)

/-- The inline trajectory-length estimation loop of
`iterate_position_with_trajectory` (`utils.rs` lines 192-208): sum of
segment lengths between 101 samples. -/
def estimate_trajectory_length (traj : Trajectory) : Option ℝ :=
  ((List.range 101).foldl (fun acc i =>
    match acc with
    | none => none
    | some (total, prev_x, prev_y, first) =>
      match evaluate_nurbs_with_tangent traj ((i : ℝ) / 100) with
      | none => none
      | some (x, y, _, _, _, _) =>
        some (if first then total else
          total + get_distance prev_x prev_y x y, x, y, false))
    (some (0, 0, 0, true))).map (·.1)

/-- The parameter-step computation of `iterate_position_with_trajectory`
(`utils.rs` lines 212-222): `speed / total_length`, capped at 0.05 for
degree 2 and at 0.1 otherwise; fall-back `speed * 0.5` when the length is
not positive. -/
def parameter_step_of (degree : Nat) (total_length speed : ℝ) : ℝ :=
  if 0 < total_length then
    if degree = 2 then min (speed / total_length) 0.05
    else min (speed / total_length) 0.1
  else speed * 0.5

/-- `iterate_position_with_straight_line` from `utils.rs`: project the
current point onto the segment between control points 0 and 1, advance the
parameter by `speed / length`, snap to the target when within `speed`.
`none` models the `control_points[0]` / `control_points[1]` panic when
fewer than two control points exist (the caller guards this). -/
def iterate_position_with_straight_line
    (current_x current_y target_x target_y speed : ℝ) (traj : Trajectory) :
    Option (ℝ × ℝ × ℝ) :=
  match traj.control_points.get? 0, traj.control_points.get? 1 with
  | some p0, some p1 =>
    let line_length := get_distance p0.x p0.y p1.x p1.y
    let t := if 0 < line_length then
        min (max (((current_x - p0.x) * (p1.x - p0.x) +
          (current_y - p0.y) * (p1.y - p0.y)) / (line_length * line_length))
          0) 1
      else 0
    let new_t := min (t + speed / line_length) 1
    let new_x := p0.x + new_t * (p1.x - p0.x)
    let new_y := p0.y + new_t * (p1.y - p0.y)
    let theta := atan2 (p1.y - p0.y) (p1.x - p0.x)
    if get_distance new_x new_y target_x target_y ≤ speed then
      some (target_x, target_y, theta)
    else some (new_x, new_y, theta)
  | _, _ => none

/-- `iterate_position_with_trajectory` from `utils.rs`: degree-1/2-point
trajectories delegate to the straight-line specialisation; otherwise step
the curve parameter by `parameter_step_of`, evaluate with tangent, snap to
the target when within `speed`, and take a straight step toward the target
when the parameter is exhausted (`u ≥ 0.99`) but the target is still far. -/
def iterate_position_with_trajectory
    (current_x current_y target_x target_y speed : ℝ) (traj : Trajectory) :
    Option (ℝ × ℝ × ℝ) :=
  if traj.degree = 1 ∧ traj.control_points.length = 2 then
    iterate_position_with_straight_line current_x current_y target_x
      target_y speed traj
  else
    match find_closest_parameter traj current_x current_y with
    | none => none
    | some current_u =>
      match estimate_trajectory_length traj with
      | none => none
      | some total_length =>
        let parameter_step := parameter_step_of traj.degree total_length speed
        let next_u := min (current_u + parameter_step) 1
        match evaluate_nurbs_with_tangent traj next_u with
        | none => none
        | some (next_x, next_y, explicit_theta, _, tangent_theta,
            has_explicit_theta) =>
          let final_theta := if has_explicit_theta then explicit_theta
            else tangent_theta
          let distance_to_target := get_distance next_x next_y target_x
            target_y
          if distance_to_target ≤ speed then
            some (target_x, target_y, final_theta)
          else if 0.99 ≤ next_u ∧ speed < distance_to_target then
            let angle := atan2 (target_y - next_y) (target_x - next_x)
            some (next_x + speed * Real.cos angle,
              next_y + speed * Real.sin angle, angle)
          else some (next_x, next_y, final_theta)

/-! ## Vehicle engine: `vehicle_simulator.rs` -/

/-- `VehicleSimulator` struct from `vehicle_simulator.rs`: the state owned by
the engine. -/
structure VehicleSimulator where
  connection_topic : String
  connection : Connection
  state_topic : String
  state : State
  visualization_topic : String
  visualization : Visualization
  order : Option Order
  instant_actions : Option InstantActions
  config : Config
  action_start_time : Option ℤ

/-- `generate_vda_mqtt_base_topic` from `mqtt_utils.rs`. -/
def generate_vda_mqtt_base_topic (vda_interface vda_version manufacturer
    serial_number : String) : String :=
  vda_interface ++ "/" ++ vda_version ++ "/" ++ manufacturer ++ "/" ++
    serial_number

/-- `create_initial_connection` from `vehicle_simulator.rs`.  `ts` stands
for the wall-clock timestamp string produced by `utils::get_timestamp()`. -/
def create_initial_connection (config : Config) (ts : String) : Connection :=
  { header_id := 0, timestamp := ts,
    version := config.vehicle.vda_full_version,
    manufacturer := config.vehicle.manufacturer,
    serial_number := config.vehicle.serial_number,
    connection_state := .connectionBroken }

/-- `create_initial_state` from `vehicle_simulator.rs`.  `random_x` and
`random_y` stand for the two `rand::random::<f32>() * 5.0 - 2.5` draws;
`ts` for the timestamp string.  The position starts with
`position_initialized = false`. -/
def create_initial_state (config : Config) (random_x random_y : ℝ)
    (ts : String) : State × AgvPosition :=
  let agv_position : AgvPosition :=
    { x := random_x, y := random_y, position_initialized := false,
      theta := 0, map_id := config.settings.map_id, deviation_range := none,
      map_description := none, localization_score := none }
  ({ header_id := 0, timestamp := ts,
     version := config.vehicle.vda_full_version,
     manufacturer := config.vehicle.manufacturer,
     serial_number := config.vehicle.serial_number,
     driving := false, distance_since_last_node := none,
     operating_mode := .automatic, node_states := [], edge_states := [],
     last_node_id := "", order_id := "", order_update_id := 0,
     last_node_sequence_id := 0, action_states := [],
     battery_state := { battery_charge := 100, battery_voltage := none,
                        battery_health := none, charging := false,
                        reach := none },
     safety_state := { e_stop := .none, field_violation := false },
     paused := none, new_base_request := none,
     agv_position := some agv_position, velocity := none,
     zone_set_id := none }, agv_position)

/-- `create_initial_visualization` from `vehicle_simulator.rs`. -/
def create_initial_visualization (config : Config)
    (agv_position : AgvPosition) (ts : String) : Visualization :=
  { header_id := 0, timestamp := ts,
    version := config.vehicle.vda_full_version,
    manufacturer := config.vehicle.manufacturer,
    serial_number := config.vehicle.serial_number,
    agv_position := some agv_position, velocity := none }

/-- `VehicleSimulator::new` from `vehicle_simulator.rs`. -/
def VehicleSimulator.new (config : Config) (random_x random_y : ℝ)
    (ts : String) : VehicleSimulator :=
  let base_topic := generate_vda_mqtt_base_topic
    config.mqtt_broker.vda_interface config.vehicle.vda_version
    config.vehicle.manufacturer config.vehicle.serial_number
  let (state, agv_position) := create_initial_state config random_x
    random_y ts
  { connection_topic := base_topic ++ "/connection",
    connection := create_initial_connection config ts,
    state_topic := base_topic ++ "/state", state := state,
    visualization_topic := base_topic ++ "/visualization",
    visualization := create_initial_visualization config agv_position ts,
    order := none, instant_actions := none, action_start_time := none,
    config := config }

/-- `InitPositionParams` struct from `vehicle_simulator.rs`. -/
structure InitPositionParams where
  x : ℝ
  y : ℝ
  theta : ℝ
  map_id : String
  last_node_id : String

/-- The `extract_float_param` closure of
`extract_init_position_parameters`: find the first parameter with the key;
a `Float` value is used as is, a `Str` value is parsed as a float
(default 0.0 when unparsable), anything else (in particular `Int`) gives
the default 0.0.  `parse` stands for the Rust `str::parse::<f32>`
(standard-library behaviour, external to the repository). -/
def extract_float_param (parse : String → Option ℝ) (action : Action)
    (key : String) : ℝ :=
  match (action.action_parameters.getD []).find? (fun p => p.key = key) with
  | some p =>
    match p.value with
    | .str s => (parse s).getD 0
    | .float f => f
    | _ => 0
  | none => 0

/-- The `extract_string_param` closure of
`extract_init_position_parameters`: only a `Str` value contributes,
default `""`. -/
def extract_string_param (action : Action) (key : String) : String :=
  match (action.action_parameters.getD []).find? (fun p => p.key = key) with
  | some p =>
    match p.value with
    | .str s => s
    | _ => ""
  | none => ""

/-- `extract_init_position_parameters` from `vehicle_simulator.rs`. -/
def extract_init_position_parameters (parse : String → Option ℝ)
    (action : Action) : InitPositionParams :=
  { x := extract_float_param parse action "x",
    y := extract_float_param parse action "y",
    theta := extract_float_param parse action "theta",
    map_id := extract_string_param action "mapId",
    last_node_id := extract_string_param action "lastNodeId" }

/-- `handle_init_position_action` from `vehicle_simulator.rs`: overwrite
`agv_position` with the extracted parameters and
`position_initialized = true`, set `last_node_id`, and mirror the position
into the visualization buffer. -/
def handle_init_position_action (parse : String → Option ℝ)
    (e : VehicleSimulator) (action : Action) : VehicleSimulator :=
  let init_params := extract_init_position_parameters parse action
  let pos : AgvPosition :=
    { x := init_params.x, y := init_params.y, position_initialized := true,
      theta := init_params.theta, map_id := init_params.map_id,
      deviation_range := none, map_description := none,
      localization_score := none }
  let st := { e.state with
    agv_position := some pos, last_node_id := init_params.last_node_id }
  { e with
    state := st,
    visualization := { e.visualization with agv_position := st.agv_position } }

/-- Set the `action_status` of the action state at index `i`
(`self.state.action_states[i].action_status = st` in the source; the index
always comes from a successful `position` search). -/
def set_action_status (l : List ActionState) (i : Nat)
    (st : ActionStatus) : List ActionState :=
  match l.get? i with
  | some a => l.set i { a with action_status := st }
  | none => l

/-- `find_action_state_index` from `vehicle_simulator.rs`. -/
def find_action_state_index (e : VehicleSimulator) (action_id : String) :
    Option Nat :=
  e.state.action_states.findIdx? (fun x => x.action_id = action_id)

/-- `run_action` from `vehicle_simulator.rs`: mark the matched action state
RUNNING, dispatch on `action_type` (only `initPosition` has a handler;
unknown types only log), then mark it FINISHED. -/
def run_action (parse : String → Option ℝ) (e : VehicleSimulator)
    (action : Action) : VehicleSimulator :=
  match find_action_state_index e action.action_id with
  | none => e
  | some i =>
    let e1 := { e with state := { e.state with
      action_states := set_action_status e.state.action_states i .running } }
    let e2 := if action.action_type = "initPosition" then
        handle_init_position_action parse e1 action
      else e1
    { e2 with state := { e2.state with
      action_states := set_action_status e2.state.action_states i
        .finished } }

/-- `accept_instant_actions` from `vehicle_simulator.rs`: replace the
stored `instant_actions` and append a WAITING action state for every
action of the request. -/
def accept_instant_actions (e : VehicleSimulator)
    (instant_action_request : InstantActions) : VehicleSimulator :=
  { e with
    instant_actions := some instant_action_request,
    state := { e.state with
      action_states := e.state.action_states ++
        instant_action_request.actions.map (fun a =>
          { action_id := a.action_id, action_status := .waiting,
            action_type := some a.action_type, result_description := none,
            action_description := none }) } }

/-- `is_vehicle_close_to_last_released_node` from `vehicle_simulator.rs`:
distance from the position of the first released node state (when both
positions exist) must be ≤ 0.1; absence of a released node or of either
position means the check passes. -/
def is_vehicle_close_to_last_released_node (e : VehicleSimulator) : Prop :=
  match e.state.node_states.find? (fun node => node.released) with
  | some last_released_node =>
    match last_released_node.node_position, e.state.agv_position with
    | some node_position, some vehicle_position =>
      get_distance vehicle_position.x vehicle_position.y node_position.x
        node_position.y ≤ 0.1
    | _, _ => True
  | none => True

/-- `can_accept_new_order` from `vehicle_simulator.rs`: fails (rejecting
the order) when an unreleased node state exists and the head node
sequence id differs from `last_node_sequence_id`, or when the vehicle is
not close enough to the last released node.  The head access
`node_states[0]` only happens when an unreleased node exists, so the list
is non-empty there. -/
def can_accept_new_order (e : VehicleSimulator) : Prop :=
  (match e.state.node_states with
   | [] => True
   | n0 :: rest =>
     ¬ (((n0 :: rest).any fun node => !node.released) = true ∧
        n0.sequence_id ≠ e.state.last_node_sequence_id)) ∧
  is_vehicle_close_to_last_released_node e

/-- `is_vehicle_ready_for_new_order` from `vehicle_simulator.rs`: no
remaining node/edge states and an initialized position. -/
def is_vehicle_ready_for_new_order (e : VehicleSimulator) : Prop :=
  e.state.node_states = [] ∧ e.state.edge_states = [] ∧
    (e.state.agv_position.map (fun pos => pos.position_initialized)).getD
      false = true

/-- `reject_order` from `vehicle_simulator.rs` only prints the reason; the
engine is untouched. -/
def reject_order (e : VehicleSimulator) (_reason : String) :
    VehicleSimulator := e

/-- Projection of an order `Node` into a `NodeState`
(`process_order_nodes`). -/
def node_to_node_state (node : Node) : NodeState :=
  { node_id := node.node_id, sequence_id := node.sequence_id,
    released := node.released, node_description := node.node_description,
    node_position := node.node_position }

/-- Projection of an order `Edge` into an `EdgeState`
(`process_order_edges`). -/
def edge_to_edge_state (edge : Edge) : EdgeState :=
  { edge_id := edge.edge_id, sequence_id := edge.sequence_id,
    released := edge.released, edge_description := edge.edge_description,
    trajectory := edge.trajectory }

/-- `add_action_state` from `vehicle_simulator.rs`: a WAITING action state
for an order action. -/
def add_action_state (action : Action) : ActionState :=
  { action_id := action.action_id, action_type := some action.action_type,
    action_description := action.action_description,
    action_status := .waiting, result_description := none }

/-- `process_order_nodes` from `vehicle_simulator.rs`: for each node (in
order) push its `NodeState` and a WAITING `ActionState` per node action. -/
def process_order_nodes (s : State) (nodes : List Node) : State :=
  nodes.foldl (fun st node =>
    { st with
      node_states := st.node_states ++ [node_to_node_state node],
      action_states := st.action_states ++
        node.actions.map add_action_state }) s

/-- `process_order_edges` from `vehicle_simulator.rs`: for each edge (in
order) push its `EdgeState` and a WAITING `ActionState` per edge action. -/
def process_order_edges (s : State) (edges : List Edge) : State :=
  edges.foldl (fun st edge =>
    { st with
      edge_states := st.edge_states ++ [edge_to_edge_state edge],
      action_states := st.action_states ++
        edge.actions.map add_action_state }) s

/-- `accept_order` from `vehicle_simulator.rs`: store the order, copy
`order_id` / `order_update_id`, reset `last_node_sequence_id` when the
update id is 0, clear `action_states` / `node_states` / `edge_states`,
then project nodes and edges. -/
def accept_order (e : VehicleSimulator) (order_request : Order) :
    VehicleSimulator :=
  let e1 := { e with order := some order_request }
  let s1 : State := { e1.state with
    order_id := order_request.order_id,
    order_update_id := order_request.order_update_id }
  let s2 := if s1.order_update_id = 0 then
      { s1 with last_node_sequence_id := 0 }
    else s1
  let s3 := { s2 with
    action_states := [], node_states := [], edge_states := [] }
  let s4 := process_order_nodes s3 order_request.nodes
  let s5 := process_order_edges s4 order_request.edges
  { e1 with state := s5 }

/-- `handle_new_order` from `vehicle_simulator.rs`. -/
def handle_new_order (e : VehicleSimulator) (order_request : Order) :
    VehicleSimulator :=
  if ¬ can_accept_new_order e then e
  else if is_vehicle_ready_for_new_order e then
    accept_order { e with state := { e.state with action_states := [] } }
      order_request
  else reject_order e "There are active order states or edge states"

/-- `handle_order_update` from `vehicle_simulator.rs`. -/
def handle_order_update (e : VehicleSimulator) (order_request : Order) :
    VehicleSimulator :=
  if order_request.order_update_id > e.state.order_update_id then
    if ¬ can_accept_new_order e then e
    else
      accept_order { e with state := { e.state with action_states := [] } }
        order_request
  else reject_order e "Order update ID is lower than current"

/-- `process_order` from `vehicle_simulator.rs`. -/
def process_order (e : VehicleSimulator) (order_request : Order) :
    VehicleSimulator :=
  if order_request.order_id ≠ e.state.order_id then
    handle_new_order e order_request
  else handle_order_update e order_request

/-- The acceptance condition of `process_order`: the exact circumstances
under which the state machine reaches `accept_order` rather than an early
return or `reject_order`. -/
def order_accepted (e : VehicleSimulator) (order_request : Order) : Prop :=
  if order_request.order_id ≠ e.state.order_id then
    can_accept_new_order e ∧ is_vehicle_ready_for_new_order e
  else
    order_request.order_update_id > e.state.order_update_id ∧
      can_accept_new_order e

/-- `is_action_in_progress` from `vehicle_simulator.rs`: an action start
time is set and `now` (seconds) is before start + `action_time`.  `now`
stands for `chrono::Utc::now().timestamp()`. -/
def is_action_in_progress (now : ℤ) (e : VehicleSimulator) : Prop :=
  match e.action_start_time with
  | some start_time => now < start_time + e.config.settings.action_time
  | none => False

/-- `process_instant_actions` from `vehicle_simulator.rs`: walk the stored
instant actions (a clone taken up front; `run_action` never modifies
`instant_actions`) and run every action whose action state is still
WAITING. -/
def process_instant_actions (parse : String → Option ℝ)
    (e : VehicleSimulator) : VehicleSimulator :=
  match e.instant_actions with
  | none => e
  | some instant_actions =>
    instant_actions.actions.foldl (fun acc action =>
      match acc.state.action_states.find?
        (fun st => st.action_id = action.action_id) with
      | some action_state =>
        if action_state.action_status = .waiting then
          run_action parse acc action
        else acc
      | none => acc) e

/-- `find_order_last_node_index` from `vehicle_simulator.rs` (the caller
guarantees `order` is set; the source unwraps). -/
def find_order_last_node_index (e : VehicleSimulator) : Option Nat :=
  match e.order with
  | none => none
  | some o => o.nodes.findIdx?
      (fun node => node.sequence_id = e.state.last_node_sequence_id)

/-- `process_node_actions` from `vehicle_simulator.rs`: at the node whose
sequence id equals `last_node_sequence_id`, finish the first action state
that is still WAITING and matches one of the actions of that node, and set
`action_start_time := now`.  At most one action per call. -/
def process_node_actions (now : ℤ) (e : VehicleSimulator) :
    VehicleSimulator :=
  match e.order with
  | none => e
  | some o =>
    match find_order_last_node_index e with
    | none => e
    | some order_last_node_index =>
      match o.nodes.get? order_last_node_index with
      | none => e
      | some nd =>
        let node_actions := nd.actions
        if node_actions.isEmpty then e
        else
          match e.state.action_states.findIdx? (fun action_state =>
            node_actions.any (fun check_action =>
              action_state.action_id = check_action.action_id) &&
            action_state.action_status = .waiting) with
          | none => e
          | some j =>
            { e with
              state := { e.state with
                action_states := set_action_status e.state.action_states j
                  .finished },
              action_start_time := some now }

/-- `get_next_node` from `vehicle_simulator.rs`: index of the node state
matching `last_node_sequence_id` (default 0), then the node state after
it; `none` when that index is at or past the end. -/
def get_next_node (e : VehicleSimulator) : Option NodeState :=
  let last_node_index := (e.state.node_states.findIdx?
    (fun node_state =>
      node_state.sequence_id = e.state.last_node_sequence_id)).getD 0
  if e.state.node_states.length - 1 ≤ last_node_index then none
  else e.state.node_states.get? (last_node_index + 1)

/-- `calculate_new_position` from `vehicle_simulator.rs`: when an edge
state with `sequence_id = next.sequence_id - 1` exists and carries a
trajectory, step along the trajectory, otherwise take a straight step.
(`sequence_id - 1` is the saturating `Nat` subtraction; the `u32` of the source
subtraction only differs by panicking at 0, which no modelled claim
reaches.) -/
def calculate_new_position (e : VehicleSimulator)
    (vehicle_position : AgvPosition) (next_node_position : NodePosition)
    (next_node : NodeState) : Option (ℝ × ℝ × ℝ) :=
  match e.state.edge_states.find?
    (fun edge => edge.sequence_id = next_node.sequence_id - 1) with
  | some edge =>
    match edge.trajectory with
    | some trajectory =>
      iterate_position_with_trajectory vehicle_position.x
        vehicle_position.y next_node_position.x next_node_position.y
        e.config.settings.speed trajectory
    | none =>
      some (iterate_position vehicle_position.x vehicle_position.y
        next_node_position.x next_node_position.y e.config.settings.speed)
  | none =>
    some (iterate_position vehicle_position.x vehicle_position.y
      next_node_position.x next_node_position.y e.config.settings.speed)

/-- `update_vehicle_position` from `vehicle_simulator.rs`: return when no
position or no node states; when exactly one node state remains, pop it
and return; otherwise step toward the next released node (if any, with a
position), write the stepped position into state and visualization, and on
arrival (pre-step distance < speed + 0.1) pop the head node/edge states
and record the reached node.  `none` models a panic inside the trajectory
geometry. -/
def update_vehicle_position (e : VehicleSimulator) :
    Option VehicleSimulator :=
  if e.state.agv_position.isNone ∨ e.state.node_states.isEmpty then some e
  else if e.state.node_states.length = 1 then
    some { e with
      state := { e.state with
        node_states := e.state.node_states.drop 1 } }
  else
    match get_next_node e with
    | none => some e
    | some next_node =>
      if ¬ next_node.released then some e
      else
        match e.state.agv_position, next_node.node_position with
        | some vehicle_position, some next_node_position =>
          match calculate_new_position e vehicle_position
            next_node_position next_node with
          | none => none
          | some updated_position =>
            let distance := get_distance vehicle_position.x
              vehicle_position.y next_node_position.x next_node_position.y
            let should_arrive :=
              distance < e.config.settings.speed + 0.1
            let pos' := { vehicle_position with
              x := updated_position.1, y := updated_position.2.1,
              theta := updated_position.2.2 }
            let e1 := { e with
              state := { e.state with agv_position := some pos' },
              visualization := { e.visualization with
                agv_position := some pos' } }
            if should_arrive then
              some { e1 with
                state := { e1.state with
                  node_states := e1.state.node_states.drop 1,
                  edge_states := e1.state.edge_states.drop 1,
                  last_node_id := next_node.node_id,
                  last_node_sequence_id := next_node.sequence_id } }
            else some e1
        | _, _ => some e

/-- `update_state` from `vehicle_simulator.rs` (the tick): do nothing
while an action is in progress; otherwise process instant actions, and if
an order is loaded advance node actions and the vehicle position.  `now`
stands for `chrono::Utc::now()` (whole seconds). -/
def update_state (parse : String → Option ℝ) (now : ℤ)
    (e : VehicleSimulator) : Option VehicleSimulator :=
  if is_action_in_progress now e then some e
  else
    let e1 := process_instant_actions parse e
    if e1.order.isNone then some e1
    else update_vehicle_position (process_node_actions now e1)

/-- The engine mutation of `publish_connection` from
`vehicle_simulator.rs`: bump `header_id`, fresh timestamp, go ONLINE. -/
def publish_connection_update (ts : String) (e : VehicleSimulator) :
    VehicleSimulator :=
  { e with connection := { e.connection with
      header_id := e.connection.header_id + 1, timestamp := ts,
      connection_state := .online } }

/-- The engine mutation of `publish_visualization` from
`vehicle_simulator.rs`: bump `header_id`, fresh timestamp. -/
def publish_visualization_update (ts : String) (e : VehicleSimulator) :
    VehicleSimulator :=
  { e with visualization := { e.visualization with
      header_id := e.visualization.header_id + 1, timestamp := ts } }

/-- The engine mutation of `publish_state` from `vehicle_simulator.rs`:
bump `header_id`, fresh timestamp. -/
def publish_state_update (ts : String) (e : VehicleSimulator) :
    VehicleSimulator :=
  { e with state := { e.state with
      header_id := e.state.header_id + 1, timestamp := ts } }

/-- The `position_initialized` flag of the position of the engine, when a
position exists. -/
def position_initialized_flag (e : VehicleSimulator) : Option Bool :=
  e.state.agv_position.map (fun pos => pos.position_initialized)

/-- A concrete degree-1 NURBS from (0,0) to (10,0) with the standard
clamped knot vector, as in the straight-line scenario of the spec. -/
def lineTraj : Trajectory :=
  { degree := 1, knot_vector := [0, 0, 1, 1],
    control_points := [⟨0, 0, none, none⟩, ⟨10, 0, none, none⟩] }

/-- The clamped knot vector of the claims about NURBS endpoint evaluation:
`degree + 1` copies of the first knot 0, interior knots, `degree + 1`
copies of the final knot 1. -/
def clampedKnots (degree : Nat) (mid : List ℝ) : List ℝ :=
  List.replicate (degree + 1) 0 ++ mid ++ List.replicate (degree + 1) 1

/-- A concrete configuration mirroring `create_test_config` of the tests. -/
def cfgEx : Config :=
  { mqtt_broker := { host := "localhost", port := "1883",
                     vda_interface := "uagv" },
    vehicle := { manufacturer := "TEST", serial_number := "AGV1",
                 vda_version := "v2", vda_full_version := "2.0.0" },
    settings := { action_time := 1, speed := 0.1, robot_count := 1,
                  state_frequency := 1, visualization_frequency := 5,
                  map_id := "map" } }

/-- A concrete initialized position at the origin. -/
def posReady : AgvPosition :=
  { x := 0, y := 0, position_initialized := true, theta := 0,
    map_id := "map", deviation_range := none, map_description := none,
    localization_score := none }

/-- A concrete engine state: fresh except that the position has been
initialized (as after an `initPosition` action at the origin). -/
def stateReady : State :=
  { header_id := 0, timestamp := "ts", version := "2.0.0",
    manufacturer := "TEST", serial_number := "AGV1", driving := false,
    distance_since_last_node := none, operating_mode := .automatic,
    node_states := [], edge_states := [], last_node_id := "",
    order_id := "", order_update_id := 0, last_node_sequence_id := 0,
    action_states := [],
    battery_state := { battery_charge := 100, battery_voltage := none,
                       battery_health := none, charging := false,
                       reach := none },
    safety_state := { e_stop := .none, field_violation := false },
    paused := none, new_base_request := none,
    agv_position := some posReady, velocity := none, zone_set_id := none }

/-- A concrete engine that is ready for a new order. -/
def engReady : VehicleSimulator :=
  { connection_topic := "uagv/v2/TEST/AGV1/connection",
    connection := { header_id := 0, timestamp := "ts", version := "2.0.0",
                    manufacturer := "TEST", serial_number := "AGV1",
                    connection_state := .connectionBroken },
    state_topic := "uagv/v2/TEST/AGV1/state", state := stateReady,
    visualization_topic := "uagv/v2/TEST/AGV1/visualization",
    visualization := { header_id := 0, timestamp := "ts",
                       version := "2.0.0", manufacturer := "TEST",
                       serial_number := "AGV1",
                       agv_position := some posReady, velocity := none },
    order := none, instant_actions := none, config := cfgEx,
    action_start_time := none }

/-- A concrete order action. -/
def actEx : Action :=
  { action_type := "beep", action_id := "a1", action_description := none,
    blocking_type := .none, action_parameters := none }

/-- A second concrete order action. -/
def actEx2 : Action :=
  { action_type := "boop", action_id := "a2", action_description := none,
    blocking_type := .soft, action_parameters := none }

/-- A concrete released order node with one action. -/
def nodeEx : Node :=
  { node_id := "n1", sequence_id := 1, node_description := none,
    released := true, node_position := none, actions := [actEx] }

/-- A concrete released order edge with one action. -/
def edgeEx : Edge :=
  { edge_id := "e1", sequence_id := 2, edge_description := none,
    released := true, start_node_id := "n1", end_node_id := "n2",
    max_speed := none, max_height := none, min_height := none,
    orientation := none, orientation_type := none, direction := none,
    rotation_allowed := none, max_rotation_speed := none, length := none,
    trajectory := none, actions := [actEx2] }

/-- A concrete fresh order (`order_update_id = 0`) with one node and one
edge. -/
def orderEx : Order :=
  { header_id := 1, timestamp := "ts", version := "2.0.0",
    manufacturer := "TEST", serial_number := "AGV1", order_id := "order1",
    order_update_id := 0, zone_set_id := none, nodes := [nodeEx],
    edges := [edgeEx] }

/-- A concrete engine currently holding order `order1` at update id 5. -/
def engOrd : VehicleSimulator :=
  { engReady with
    state := { stateReady with order_id := "order1", order_update_id := 5 } }

/-- A concrete update for order `order1` with the stale update id 3. -/
def orderLow : Order :=
  { header_id := 1, timestamp := "ts", version := "2.0.0",
    manufacturer := "TEST", serial_number := "AGV1", order_id := "order1",
    order_update_id := 3, zone_set_id := none, nodes := [], edges := [] }

/-- A concrete engine whose action timer started at second 100. -/
def engActing : VehicleSimulator :=
  { engReady with action_start_time := some 100 }

/-- A concrete node state. -/
def nsEx : NodeState :=
  { node_id := "n1", sequence_id := 1, released := true,
    node_description := none, node_position := none }

/-- A concrete engine with exactly one remaining node state. -/
def engOneNode : VehicleSimulator :=
  { engReady with state := { stateReady with node_states := [nsEx] } }

/-- A model of `str::parse::<f32>` that accepts nothing (any function of
this type works for the parametric theorems). -/
def parseNone : String → Option ℝ := fun _ => none

/-- A concrete `initPosition` action whose x/y/theta parameters are
supplied as `Int` values. -/
def actInt : Action :=
  { action_type := "initPosition", action_id := "a9",
    action_description := none, blocking_type := .hard,
    action_parameters := some [⟨"x", .int 3⟩, ⟨"y", .int 4⟩,
      ⟨"theta", .int 5⟩] }

end

/-! ## Order state machine lemmas -/

lemma process_order_nodes_spec (nodes : List Node) (s : State) :
    process_order_nodes s nodes = { s with
      node_states := s.node_states ++ nodes.map node_to_node_state,
      action_states := s.action_states ++
        nodes.flatMap fun nd => nd.actions.map add_action_state } := by
  induction nodes generalizing s with
  | nil => simp [process_order_nodes]
  | cons n ns ih =>
    rw [show process_order_nodes s (n :: ns) =
      process_order_nodes { s with
        node_states := s.node_states ++ [node_to_node_state n],
        action_states := s.action_states ++ n.actions.map add_action_state }
      ns from rfl, ih]
    simp [List.append_assoc]

lemma process_order_edges_spec (edges : List Edge) (s : State) :
    process_order_edges s edges = { s with
      edge_states := s.edge_states ++ edges.map edge_to_edge_state,
      action_states := s.action_states ++
        edges.flatMap fun ed => ed.actions.map add_action_state } := by
  induction edges generalizing s with
  | nil => simp [process_order_edges]
  | cons n ns ih =>
    rw [show process_order_edges s (n :: ns) =
      process_order_edges { s with
        edge_states := s.edge_states ++ [edge_to_edge_state n],
        action_states := s.action_states ++ n.actions.map add_action_state }
      ns from rfl, ih]
    simp [List.append_assoc]

lemma accept_order_spec (e : VehicleSimulator) (o : Order) :
    accept_order e o = { e with
      order := some o,
      state := { e.state with
        order_id := o.order_id,
        order_update_id := o.order_update_id,
        last_node_sequence_id := if o.order_update_id = 0 then 0
          else e.state.last_node_sequence_id,
        node_states := o.nodes.map node_to_node_state,
        edge_states := o.edges.map edge_to_edge_state,
        action_states :=
          (o.nodes.flatMap fun nd => nd.actions.map add_action_state) ++
            o.edges.flatMap fun ed => ed.actions.map add_action_state } } := by
  by_cases h0 : o.order_update_id = 0 <;>
    simp [accept_order, h0, process_order_nodes_spec,
      process_order_edges_spec]

lemma process_order_of_accepted (e : VehicleSimulator) (o : Order)
    (h : order_accepted e o) :
    process_order e o = accept_order
      { e with state := { e.state with action_states := [] } } o := by
  unfold process_order handle_new_order handle_order_update
  unfold order_accepted at h
  by_cases hid : o.order_id ≠ e.state.order_id
  · rw [if_pos hid] at h
    rw [if_pos hid, if_neg (not_not_intro h.1), if_pos h.2]
  · rw [if_neg hid] at h
    rw [if_neg hid, if_pos h.1, if_neg (not_not_intro h.2)]

/-- Claim C1: every accepted order fully reprojects the state: `order_id`
and `order_update_id` are copied from the order, `node_states` is exactly
the (order-preserving) projection of the order nodes and `edge_states` of
the order edges, the action states are exactly one WAITING entry per
node action and per edge action, and `last_node_sequence_id` is reset to 0
whenever `order_update_id = 0`. -/
theorem accepted_order_postconditions (e : VehicleSimulator) (o : Order)
    (h : order_accepted e o) :
    (process_order e o).state.order_id = o.order_id ∧
    (process_order e o).state.order_update_id = o.order_update_id ∧
    (process_order e o).state.node_states =
      o.nodes.map node_to_node_state ∧
    (process_order e o).state.edge_states =
      o.edges.map edge_to_edge_state ∧
    (process_order e o).state.action_states =
      ((o.nodes.flatMap fun nd => nd.actions.map add_action_state) ++
        o.edges.flatMap fun ed => ed.actions.map add_action_state) ∧
    (∀ a, a ∈ (o.nodes.flatMap fun nd => nd.actions) ++
        (o.edges.flatMap fun ed => ed.actions) →
      add_action_state a ∈ (process_order e o).state.action_states ∧
        (add_action_state a).action_status = ActionStatus.waiting) ∧
    (o.order_update_id = 0 →
      (process_order e o).state.last_node_sequence_id = 0) := by
  rw [process_order_of_accepted e o h, accept_order_spec]
  refine ⟨rfl, rfl, rfl, rfl, rfl, ?_, ?_⟩
  · intro a ha
    refine ⟨?_, rfl⟩
    simp only [List.mem_append, List.mem_flatMap] at ha ⊢
    rcases ha with ⟨nd, hnd, hand⟩ | ⟨ed, hed, haed⟩
    · exact Or.inl ⟨nd, hnd, List.mem_map_of_mem _ hand⟩
    · exact Or.inr ⟨ed, hed, List.mem_map_of_mem _ haed⟩
  · intro h0
    simp [h0]

/-- Claim C1 witness: the ready engine accepts the concrete one-node,
one-edge order and the postconditions hold there. -/
theorem accepted_order_postconditions_w :
    (process_order engReady orderEx).state.order_id = orderEx.order_id ∧
    (process_order engReady orderEx).state.order_update_id =
      orderEx.order_update_id ∧
    (process_order engReady orderEx).state.node_states =
      orderEx.nodes.map node_to_node_state ∧
    (process_order engReady orderEx).state.edge_states =
      orderEx.edges.map edge_to_edge_state ∧
    (process_order engReady orderEx).state.action_states =
      ((orderEx.nodes.flatMap fun nd => nd.actions.map add_action_state) ++
        orderEx.edges.flatMap fun ed => ed.actions.map add_action_state) ∧
    (∀ a, a ∈ (orderEx.nodes.flatMap fun nd => nd.actions) ++
        (orderEx.edges.flatMap fun ed => ed.actions) →
      add_action_state a ∈ (process_order engReady orderEx).state.action_states ∧
        (add_action_state a).action_status = ActionStatus.waiting) ∧
    (orderEx.order_update_id = 0 →
      (process_order engReady orderEx).state.last_node_sequence_id = 0) :=
  accepted_order_postconditions engReady orderEx (by
    simp [order_accepted, engReady, stateReady, orderEx, posReady,
      can_accept_new_order, is_vehicle_close_to_last_released_node,
      is_vehicle_ready_for_new_order])

/-- Claim C2: an order that fails any validation check of the acceptance
state machine leaves the whole engine (state, visualization, connection,
stored order, instant actions, action start time) exactly unchanged. -/
theorem rejected_order_no_mutation (e : VehicleSimulator) (o : Order)
    (h : ¬ order_accepted e o) : process_order e o = e := by
  unfold process_order handle_new_order handle_order_update
  unfold order_accepted at h
  by_cases hid : o.order_id ≠ e.state.order_id
  · rw [if_pos hid] at h
    rw [if_pos hid]
    by_cases hca : can_accept_new_order e
    · have hr : ¬ is_vehicle_ready_for_new_order e := fun hr => h ⟨hca, hr⟩
      rw [if_neg (not_not_intro hca), if_neg hr]
      rfl
    · rw [if_pos hca]
  · rw [if_neg hid] at h
    rw [if_neg hid]
    by_cases hgt : o.order_update_id > e.state.order_update_id
    · have hca : ¬ can_accept_new_order e := fun hca => h ⟨hgt, hca⟩
      rw [if_pos hgt, if_pos hca]
    · rw [if_neg hgt]
      rfl

/-- Claim C2 witness: the engine holding `order1` at update id 5 rejects
the update with id 3 and is unchanged. -/
theorem rejected_order_no_mutation_w :
    process_order engOrd orderLow = engOrd :=
  rejected_order_no_mutation engOrd orderLow (by
    simp [order_accepted, engOrd, engReady, stateReady, orderLow])

/-- Claim C5 counterexample: an order whose `order_update_id` (0) is not
greater than the current `state.order_update_id` (0) is nevertheless
accepted, because its `order_id` differs from the current one and the
new-order path never compares update ids: `process_order` is not a no-op
on the ready engine. -/
theorem stale_update_id_still_accepted :
    orderEx.order_update_id ≤ engReady.state.order_update_id ∧
    process_order engReady orderEx ≠ engReady := by
  constructor
  · exact Nat.le.refl
  · have hstep : process_order engReady orderEx = accept_order
        { engReady with
          state := { engReady.state with action_states := [] } } orderEx := by
      refine process_order_of_accepted engReady orderEx ?_
      simp [order_accepted, engReady, stateReady, orderEx, posReady,
        can_accept_new_order, is_vehicle_close_to_last_released_node,
        is_vehicle_ready_for_new_order]
    intro hEq
    have hid : (process_order engReady orderEx).state.order_id =
        engReady.state.order_id := by rw [hEq]
    rw [hstep, accept_order_spec] at hid
    simp [orderEx, engReady, stateReady] at hid

/-- Claim C5 (amended): an incoming order with the same `order_id` as the
current one and `order_update_id` not greater than the current
`state.order_update_id` is rejected and the engine is exactly unchanged. -/
theorem same_order_stale_update_no_mutation (e : VehicleSimulator)
    (o : Order) (h1 : o.order_id = e.state.order_id)
    (h2 : o.order_update_id ≤ e.state.order_update_id) :
    process_order e o = e := by
  unfold process_order handle_order_update
  rw [if_neg (not_not_intro h1), if_neg (Nat.not_lt.mpr h2)]
  rfl

/-- Claim C5 (amended) witness: the stale same-id update at the concrete
engine. -/
theorem same_order_stale_update_no_mutation_w :
    process_order engOrd orderLow = engOrd :=
  same_order_stale_update_no_mutation engOrd orderLow rfl
    (by norm_num [engOrd, engReady, stateReady, orderLow])

/-- Claim C3: while an action is in progress (`action_start_time` set and
`now` before start + `action_time`, whole seconds), a tick returns the
engine exactly unchanged: no instant action runs, no node action
graduates, and position and node/edge states stay as they are. -/
theorem tick_noop_while_action_in_progress (parse : String → Option ℝ)
    (now : ℤ) (e : VehicleSimulator) (t : ℤ)
    (h1 : e.action_start_time = some t)
    (h2 : now < t + e.config.settings.action_time) :
    update_state parse now e = some e := by
  have hc : is_action_in_progress now e := by
    unfold is_action_in_progress
    rw [h1]
    exact h2
  unfold update_state
  rw [if_pos hc]

/-- Claim C3 witness: at second 100, the engine whose action started at
second 100 with `action_time = 1` ticks to itself. -/
theorem tick_noop_while_action_in_progress_w :
    update_state parseNone 100 engActing = some engActing :=
  tick_noop_while_action_in_progress parseNone 100 engActing 100 rfl
    (by norm_num [engActing, engReady, cfgEx])

/-- Claim C4: with a position present and exactly one node state left, the
motion step pops that node state and returns at once; the engine is
otherwise untouched (`agv_position`, `last_node_id` and
`last_node_sequence_id` keep their values) — the vehicle is never driven
to that final node. -/
theorem final_node_popped_without_motion (e : VehicleSimulator)
    (h1 : e.state.agv_position.isSome = true)
    (h2 : e.state.node_states.length = 1) :
    update_vehicle_position e =
      some { e with state := { e.state with node_states := [] } } := by
  have hne : ¬ (e.state.agv_position.isNone = true ∨
      e.state.node_states.isEmpty = true) := by
    rintro (hno | hemp)
    · rw [Option.isNone_iff_eq_none] at hno
      rw [hno] at h1
      simp at h1
    · rw [List.isEmpty_iff] at hemp
      rw [hemp] at h2
      simp at h2
  unfold update_vehicle_position
  rw [if_neg hne, if_pos h2,
    show e.state.node_states.drop 1 = [] from
      List.drop_eq_nil_iff.mpr (by omega)]

/-- Claim C4 witness: the concrete engine with a single remaining node
state. -/
theorem final_node_popped_without_motion_w :
    update_vehicle_position engOneNode =
      some { engOneNode with
        state := { engOneNode.state with node_states := [] } } :=
  final_node_popped_without_motion engOneNode rfl rfl

/-- Claim C9: `position_initialized` only ever goes from false to true
within one engine: it is false at construction, the initPosition handler
sets it to true, and `process_order`, `accept_instant_actions`,
`update_vehicle_position` and the three publish snapshots never change
it. -/
theorem position_initialized_monotone :
    (∀ config rx ry ts, position_initialized_flag
      (VehicleSimulator.new config rx ry ts) = some false) ∧
    (∀ parse e a, position_initialized_flag
      (handle_init_position_action parse e a) = some true) ∧
    (∀ e o, position_initialized_flag (process_order e o) =
      position_initialized_flag e) ∧
    (∀ e ia, position_initialized_flag (accept_instant_actions e ia) =
      position_initialized_flag e) ∧
    (∀ e, (update_vehicle_position e).elim True fun e2 =>
      position_initialized_flag e2 = position_initialized_flag e) ∧
    (∀ ts e, position_initialized_flag (publish_connection_update ts e) =
        position_initialized_flag e ∧
      position_initialized_flag (publish_state_update ts e) =
        position_initialized_flag e ∧
      position_initialized_flag (publish_visualization_update ts e) =
        position_initialized_flag e) := by
  refine ⟨?_, ?_, ?_, ?_, ?_, ?_⟩
  · intro config rx ry ts
    simp [VehicleSimulator.new, create_initial_state,
      position_initialized_flag]
  · intro parse e a
    simp [handle_init_position_action, position_initialized_flag]
  · intro e o
    unfold process_order handle_new_order handle_order_update
    by_cases hid : o.order_id ≠ e.state.order_id
    · rw [if_pos hid]
      by_cases hca : can_accept_new_order e
      · rw [if_neg (not_not_intro hca)]
        by_cases hr : is_vehicle_ready_for_new_order e
        · rw [if_pos hr, accept_order_spec]
          simp [position_initialized_flag]
        · rw [if_neg hr]
          rfl
      · rw [if_pos hca]
    · rw [if_neg hid]
      by_cases hgt : o.order_update_id > e.state.order_update_id
      · rw [if_pos hgt]
        by_cases hca : can_accept_new_order e
        · rw [if_neg (not_not_intro hca), accept_order_spec]
          simp [position_initialized_flag]
        · rw [if_pos hca]
      · rw [if_neg hgt]
        rfl
  · intro e ia
    simp [accept_instant_actions, position_initialized_flag]
  · intro e
    unfold update_vehicle_position
    repeat' split
    all_goals simp only [Option.elim]
    all_goals try split_ifs
    all_goals simp_all [position_initialized_flag]
  · intro ts e
    refine ⟨?_, ?_, ?_⟩ <;>
      simp [publish_connection_update, publish_state_update,
        publish_visualization_update, position_initialized_flag]

/-- Claim C10: an `initPosition` x/y/theta parameter supplied as an `Int`
value contributes nothing: the extracted coordinate is the default 0.0
(only `Float` and parsed `Str` variants are used). -/
theorem init_position_int_parameter_defaults (parse : String → Option ℝ)
    (a : Action) :
    (∀ n : ℤ, (a.action_parameters.getD []).find? (fun p => p.key = "x") =
        some ⟨"x", .int n⟩ →
      (extract_init_position_parameters parse a).x = 0) ∧
    (∀ n : ℤ, (a.action_parameters.getD []).find? (fun p => p.key = "y") =
        some ⟨"y", .int n⟩ →
      (extract_init_position_parameters parse a).y = 0) ∧
    (∀ n : ℤ,
      (a.action_parameters.getD []).find? (fun p => p.key = "theta") =
        some ⟨"theta", .int n⟩ →
      (extract_init_position_parameters parse a).theta = 0) := by
  refine ⟨?_, ?_, ?_⟩ <;> intro n h <;>
    simp [extract_init_position_parameters, extract_float_param, h]

/-- Claim C10 witness: the concrete `initPosition` action with integer
x/y/theta parameters extracts all three as 0. -/
theorem init_position_int_parameter_defaults_w :
    (extract_init_position_parameters parseNone actInt).x = 0 ∧
    (extract_init_position_parameters parseNone actInt).y = 0 ∧
    (extract_init_position_parameters parseNone actInt).theta = 0 := by
  obtain ⟨hx, hy, ht⟩ :=
    init_position_int_parameter_defaults parseNone actInt
  exact ⟨hx 3 (by simp [actInt]), hy 4 (by simp [actInt]),
    ht 5 (by simp [actInt])⟩

/-! ## Geometry kernel lemmas -/

lemma sqrt_hundred : Real.sqrt 100 = 10 := by
  rw [show (100 : ℝ) = 10 ^ 2 by norm_num]
  exact Real.sqrt_sq (by norm_num)

lemma sqrt_eightyone : Real.sqrt 81 = 9 := by
  rw [show (81 : ℝ) = 9 ^ 2 by norm_num]
  exact Real.sqrt_sq (by norm_num)

lemma atan2_zero_ten : atan2 0 10 = 0 := by
  unfold atan2
  rw [if_pos (by norm_num : (0:ℝ) < 10)]
  simp [Real.arctan_zero]

/-- Claim C7: a trajectory with degree 1 and exactly 2 control points is
handled by the straight-line specialisation, and on the concrete degree-1
NURBS from (0,0) to (10,0) with the vehicle at (0,0) and speed 1, one step
gives position (1, 0) with θ = 0. -/
theorem degree_one_two_point_straight_line :
    (∀ (traj : Trajectory) (cx cy tx ty speed : ℝ),
      traj.degree = 1 → traj.control_points.length = 2 →
      iterate_position_with_trajectory cx cy tx ty speed traj =
        iterate_position_with_straight_line cx cy tx ty speed traj) ∧
    iterate_position_with_trajectory 0 0 10 0 1 lineTraj =
      some (1, 0, 0) := by
  have hdel : ∀ (traj : Trajectory) (cx cy tx ty speed : ℝ),
      traj.degree = 1 → traj.control_points.length = 2 →
      iterate_position_with_trajectory cx cy tx ty speed traj =
        iterate_position_with_straight_line cx cy tx ty speed traj := by
    intro traj cx cy tx ty speed h1 h2
    unfold iterate_position_with_trajectory
    rw [if_pos ⟨h1, h2⟩]
  refine ⟨hdel, ?_⟩
  rw [hdel lineTraj 0 0 10 0 1 rfl rfl]
  have hlen : get_distance 0 0 10 0 = 10 := by
    rw [get_distance, show ((0:ℝ) - 10) ^ 2 + ((0:ℝ) - 0) ^ 2 = 100 by
      norm_num, sqrt_hundred]
  have hfar : get_distance 1 0 10 0 = 9 := by
    rw [get_distance, show ((1:ℝ) - 10) ^ 2 + ((0:ℝ) - 0) ^ 2 = 81 by
      norm_num, sqrt_eightyone]
  unfold iterate_position_with_straight_line
  show (match (some (⟨0, 0, none, none⟩ : ControlPoint),
      some (⟨10, 0, none, none⟩ : ControlPoint)) with
    | (some p0, some p1) => _
    | _ => none) = _
  simp only []
  rw [hlen]
  norm_num [min_def, max_def, hfar, atan2_zero_ten]

/-- Claim C7 witness: the delegation statement applied at the concrete
straight-line trajectory and inputs. -/
theorem degree_one_two_point_straight_line_w :
    iterate_position_with_trajectory 0 0 10 0 1 lineTraj =
      iterate_position_with_straight_line 0 0 10 0 1 lineTraj :=
  degree_one_two_point_straight_line.1 lineTraj 0 0 10 0 1 rfl rfl

/-- On the knot vector `[0, 1]` with degree 1, `n = 0`: the basis array is
empty and the write `basis[span] = 1.0` is out of bounds — the source
panics, modelled by `none`. -/
lemma basis_functions_empty_basis : basis_functions 1 [0, 1] 0 = none := by
  unfold basis_functions
  norm_num [List.range']

/-- Claim C8 counterexample: an empty basis (knot vector of length 2 with
degree 1, so `n = |U| - degree - 1 = 0`) does NOT "still yield a result":
`basis_functions` hits the out-of-bounds write `basis[span] = 1.0`
(`span = 1`, array length 0) and panics, modelled by `none`. -/
theorem empty_basis_panics : basis_functions 1 [0, 1] 0 = none :=
  basis_functions_empty_basis

/-- Claim C8 (amended): when the estimated trajectory length is 0 the
parameter step falls back to `speed * 0.5`; but an empty basis does not
yield a fall-back result: `basis_functions` fails (out-of-bounds write,
a panic in the source). -/
theorem zero_length_fallback_and_empty_basis :
    (∀ (degree : Nat) (speed : ℝ),
      parameter_step_of degree 0 speed = speed * 0.5) ∧
    basis_functions 1 [0, 1] 0 = none := by
  refine ⟨?_, basis_functions_empty_basis⟩
  intro degree speed
  unfold parameter_step_of
  rw [if_neg (by norm_num)]

/-! ## NURBS endpoint evaluation on clamped knot vectors -/

lemma getD_replicate_of_lt {a d : ℝ} {n i : Nat} (h : i < n) :
    (List.replicate n a).getD i d = a := by
  rw [List.getD_eq_getElem?_getD, List.getElem?_replicate, if_pos h]
  rfl

lemma clampedKnots_length (d : Nat) (mid : List ℝ) :
    (clampedKnots d mid).length = 2 * d + 2 + mid.length := by
  simp [clampedKnots]
  omega

lemma clampedKnots_lo (d : Nat) (mid : List ℝ) {i : Nat} (h : i ≤ d) :
    (clampedKnots d mid).getD i 0 = 0 := by
  unfold clampedKnots
  rw [List.getD_append (List.replicate (d + 1) 0 ++ mid)
      (List.replicate (d + 1) 1) 0 i (by simp; omega),
    List.getD_append (List.replicate (d + 1) 0) mid 0 i (by simp; omega)]
  exact getD_replicate_of_lt (by omega)

lemma clampedKnots_hi (d : Nat) (mid : List ℝ) {i : Nat}
    (h1 : d + 1 + mid.length ≤ i) (h2 : i < 2 * d + 2 + mid.length) :
    (clampedKnots d mid).getD i 0 = 1 := by
  unfold clampedKnots
  rw [List.getD_append_right (List.replicate (d + 1) 0 ++ mid)
      (List.replicate (d + 1) 1) 0 i (by simp; omega)]
  exact getD_replicate_of_lt (by simp; omega)

lemma clampedKnots_mid (d : Nat) (mid : List ℝ) {i : Nat}
    (hmid : ∀ x ∈ mid, 0 < x ∧ x < 1) (h1 : d + 1 ≤ i)
    (h2 : i < d + 1 + mid.length) :
    0 < (clampedKnots d mid).getD i 0 ∧
      (clampedKnots d mid).getD i 0 < 1 := by
  unfold clampedKnots
  rw [List.getD_append (List.replicate (d + 1) 0 ++ mid)
      (List.replicate (d + 1) 1) 0 i (by simp; omega),
    List.getD_append_right (List.replicate (d + 1) 0) mid 0 i
      (by simp; omega)]
  have hin : i - (List.replicate (d + 1) (0:ℝ)).length < mid.length := by
    simp
    omega
  rw [List.getD_eq_getElem mid 0 hin]
  exact hmid _ (List.getElem_mem hin)

lemma clampedKnots_dp1_pos (d : Nat) (mid : List ℝ)
    (hmid : ∀ x ∈ mid, 0 < x ∧ x < 1) :
    0 < (clampedKnots d mid).getD (d + 1) 0 := by
  rcases Nat.eq_zero_or_pos mid.length with hM | hM
  · rw [clampedKnots_hi d mid (by omega) (by omega)]
    norm_num
  · exact (clampedKnots_mid d mid hmid (by omega) (by omega)).1

lemma clampedKnots_last_mid_lt_one (d : Nat) (mid : List ℝ)
    (hmid : ∀ x ∈ mid, 0 < x ∧ x < 1) :
    (clampedKnots d mid).getD (d + mid.length) 0 < 1 := by
  rcases Nat.eq_zero_or_pos mid.length with hM | hM
  · rw [show d + mid.length = d from by omega,
      clampedKnots_lo d mid (le_refl d)]
    norm_num
  · exact (clampedKnots_mid d mid hmid (by omega) (by omega)).2

/-- At `u = 0` on a clamped knot vector (span `d`), one Cox-de Boor level
moves the single nonzero basis entry from index `d - k` to `d - (k+1)`. -/
lemma basis_level_zero_step (d : Nat) (mid : List ℝ)
    (hmid : ∀ x ∈ mid, 0 < x ∧ x < 1) (k : Nat) (hk : k + 1 ≤ d) :
    basis_level (clampedKnots d mid) 0 (d + 1 + mid.length) d (k + 1)
      (fun j => if j = d - k then (1:ℝ) else 0) =
    fun j => if j = d - (k + 1) then (1:ℝ) else 0 := by
  have hpos : 0 < (clampedKnots d mid).getD (d + 1) 0 :=
    clampedKnots_dp1_pos d mid hmid
  funext j
  unfold basis_level
  by_cases hg : d - (k + 1) ≤ j ∧ j ≤ d ∧ j < d + 1 + mid.length
  · rw [if_pos hg]
    by_cases hj1 : j = d - k
    · subst hj1
      have e1 : d - k + (k + 1) = d + 1 := by omega
      have e2 : (clampedKnots d mid).getD (d - k) 0 = 0 :=
        clampedKnots_lo d mid (by omega)
      have e4 : ¬ (d - k + 1 = d - k) := by omega
      have e5 : ¬ (d - k = d - (k + 1)) := by omega
      rw [e1, e2]
      set c := (clampedKnots d mid).getD (d + 1) 0 with hc
      simp [e4, e5, ne_of_gt hpos]
    · by_cases hj2 : j = d - (k + 1)
      · subst hj2
        have f0 : d - (k + 1) + 1 = d - k := by omega
        have f2 : d - (k + 1) + (k + 1) + 1 = d + 1 := by omega
        have f3 : (clampedKnots d mid).getD (d - k) 0 = 0 :=
          clampedKnots_lo d mid (by omega)
        have f5 : ¬ (d - (k + 1) = d - k) := by omega
        have f6 : d - k < d + 1 + mid.length := by omega
        rw [f0, f2, f3]
        set c := (clampedKnots d mid).getD (d + 1) 0 with hc
        simp [f5, f6, ne_of_gt hpos, div_self (ne_of_gt hpos)]
      · have g1 : ¬ (j + 1 = d - k) := by omega
        rw [if_neg hj2]
        simp [hj1, g1]
  · rw [if_neg hg]
    have : ¬ (j = d - (k + 1)) := by omega
    rw [if_neg this]

/-- At `u = 1` on a clamped knot vector (span `n - 1 = d + |mid|`), every
Cox-de Boor level keeps the single nonzero basis entry at the last index. -/
lemma basis_level_one_step (d : Nat) (mid : List ℝ)
    (hmid : ∀ x ∈ mid, 0 < x ∧ x < 1) (k : Nat) (hk : k + 1 ≤ d) :
    basis_level (clampedKnots d mid) 1 (d + 1 + mid.length)
      (d + mid.length) (k + 1)
      (fun j => if j = d + mid.length then (1:ℝ) else 0) =
    fun j => if j = d + mid.length then (1:ℝ) else 0 := by
  have hlt : (clampedKnots d mid).getD (d + mid.length) 0 < 1 :=
    clampedKnots_last_mid_lt_one d mid hmid
  have hdenom : (1:ℝ) - (clampedKnots d mid).getD (d + mid.length) 0 ≠ 0 :=
    sub_ne_zero_of_ne hlt.ne'
  have hone : (clampedKnots d mid).getD (d + mid.length + (k + 1)) 0 = 1 :=
    clampedKnots_hi d mid (by omega) (by omega)
  funext j
  unfold basis_level
  by_cases hg : d + mid.length - (k + 1) ≤ j ∧ j ≤ d + mid.length ∧
      j < d + 1 + mid.length
  · rw [if_pos hg]
    by_cases hj1 : j = d + mid.length
    · subst hj1
      have e1 : ¬ (d + mid.length + 1 < d + 1 + mid.length) := by omega
      rw [hone]
      set c := (clampedKnots d mid).getD (d + mid.length) 0 with hc
      simp [e1, hdenom, div_self hdenom]
    · by_cases hj2 : j + 1 = d + mid.length
      · have f1 : j + (k + 1) + 1 = d + mid.length + (k + 1) := by omega
        have f2 : j + 1 < d + 1 + mid.length := by omega
        rw [f1, hone, hj2]
        set c := (clampedKnots d mid).getD (d + mid.length) 0 with hc
        simp [hj1, f2, hdenom]
      · simp [hj1, hj2]
  · rw [if_neg hg]
    have : ¬ (j = d + mid.length) := by omega
    rw [if_neg this]

lemma basis_fold_zero (d : Nat) (mid : List ℝ)
    (hmid : ∀ x ∈ mid, 0 < x ∧ x < 1) :
    ∀ k, k ≤ d →
      (List.range' 1 k).foldl
        (fun b k' =>
          basis_level (clampedKnots d mid) 0 (d + 1 + mid.length) d k' b)
        (fun j => if j = d then (1:ℝ) else 0) =
      fun j => if j = d - k then (1:ℝ) else 0 := by
  intro k
  induction k with
  | zero => intro _; simp
  | succ k ih =>
    intro hk
    rw [List.range'_concat, List.foldl_append, ih (by omega)]
    simp only [List.foldl_cons, List.foldl_nil]
    rw [show 1 + 1 * k = k + 1 from by omega]
    exact basis_level_zero_step d mid hmid k hk

lemma basis_fold_one (d : Nat) (mid : List ℝ)
    (hmid : ∀ x ∈ mid, 0 < x ∧ x < 1) :
    ∀ k, k ≤ d →
      (List.range' 1 k).foldl
        (fun b k' =>
          basis_level (clampedKnots d mid) 1 (d + 1 + mid.length)
            (d + mid.length) k' b)
        (fun j => if j = d + mid.length then (1:ℝ) else 0) =
      fun j => if j = d + mid.length then (1:ℝ) else 0 := by
  intro k
  induction k with
  | zero => intro _; simp
  | succ k ih =>
    intro hk
    rw [List.range'_concat, List.foldl_append, ih (by omega)]
    simp only [List.foldl_cons, List.foldl_nil]
    rw [show 1 + 1 * k = k + 1 from by omega]
    exact basis_level_one_step d mid hmid k hk

/-- `basis_functions` at `u = 0` on a clamped knot vector: span `d`, and
the recursion ends with basis `e₀` (the first basis function is 1). -/
lemma basis_functions_clamped_zero (d : Nat) (mid : List ℝ) (hd : 1 ≤ d)
    (hmid : ∀ x ∈ mid, 0 < x ∧ x < 1) :
    basis_functions d (clampedKnots d mid) 0 =
      some ((List.range (d + 1 + mid.length)).map
        fun j => if j = 0 then (1:ℝ) else 0) := by
  have hlen : (clampedKnots d mid).length = 2 * d + 2 + mid.length :=
    clampedKnots_length d mid
  have hlast : (clampedKnots d mid).getD
      ((clampedKnots d mid).length - 1) 0 = 1 := by
    rw [hlen]
    exact clampedKnots_hi d mid (by omega) (by omega)
  have hfind : (List.range' d ((clampedKnots d mid).length - 1 - d)).find?
      (fun i => decide ((clampedKnots d mid).getD i 0 ≤ 0 ∧
        0 < (clampedKnots d mid).getD (i + 1) 0)) = some d := by
    rw [show (clampedKnots d mid).length - 1 - d = (d + mid.length) + 1
      from by omega, List.range'_succ]
    apply List.find?_cons_of_pos
    simp only [decide_eq_true_eq]
    exact ⟨le_of_eq (clampedKnots_lo d mid (le_refl d)),
      clampedKnots_dp1_pos d mid hmid⟩
  unfold basis_functions
  rw [if_neg (show ¬ ((clampedKnots d mid).length < d + 1) from by omega)]
  simp only [hlast]
  rw [if_neg (show ¬ ((1:ℝ) ≤ 0 ∧ (clampedKnots d mid).length < d + 2)
    from fun h => absurd h.1 (by norm_num))]
  rw [if_neg (show ¬ ((1:ℝ) ≤ 0) from by norm_num)]
  rw [hfind, Option.getD_some]
  rw [if_neg (show ¬ ((clampedKnots d mid).length - d - 1 ≤ d) from by
    omega)]
  rw [if_neg (lt_irrefl d)]
  rw [show (clampedKnots d mid).length - d - 1 = d + 1 + mid.length
    from by omega]
  rw [basis_fold_zero d mid hmid d (le_refl d)]
  simp

/-- `basis_functions` at `u = 1` on a clamped knot vector: the final-knot
branch sets span `n - 1`, and the recursion ends with basis `e_{n-1}` (the
last basis function is 1). -/
lemma basis_functions_clamped_one (d : Nat) (mid : List ℝ) (hd : 1 ≤ d)
    (hmid : ∀ x ∈ mid, 0 < x ∧ x < 1) :
    basis_functions d (clampedKnots d mid) 1 =
      some ((List.range (d + 1 + mid.length)).map
        fun j => if j = d + mid.length then (1:ℝ) else 0) := by
  have hlen : (clampedKnots d mid).length = 2 * d + 2 + mid.length :=
    clampedKnots_length d mid
  have hlast : (clampedKnots d mid).getD
      ((clampedKnots d mid).length - 1) 0 = 1 := by
    rw [hlen]
    exact clampedKnots_hi d mid (by omega) (by omega)
  unfold basis_functions
  rw [if_neg (show ¬ ((clampedKnots d mid).length < d + 1) from by omega)]
  simp only [hlast]
  rw [if_neg (show ¬ ((1:ℝ) ≤ 1 ∧ (clampedKnots d mid).length < d + 2)
    from fun h => absurd h.2 (by omega))]
  rw [if_pos (le_refl (1:ℝ))]
  rw [show (clampedKnots d mid).length - d - 2 = d + mid.length
    from by omega]
  rw [if_neg (show ¬ ((clampedKnots d mid).length - d - 1 ≤
    d + mid.length) from by omega)]
  rw [if_neg (show ¬ (d + mid.length < d) from by omega)]
  rw [show (clampedKnots d mid).length - d - 1 = d + 1 + mid.length
    from by omega]
  rw [basis_fold_one d mid hmid d (le_refl d)]

lemma indicator_basis_getD (N p i : Nat) :
    ((List.range N).map fun j => if j = p then (1:ℝ) else 0).getD i 0 =
      if i < N then (if i = p then (1:ℝ) else 0) else 0 := by
  rw [List.getD_eq_getElem?_getD, List.getElem?_map]
  by_cases h : i < N
  · rw [List.getElem?_range h]
    simp [h]
  · rw [List.getElem?_eq_none (by simpa using h)]
    simp [h]

lemma nurbs_fold_skip (basis : List ℝ) (cps : List ControlPoint)
    (l : List Nat) (a : NurbsAcc)
    (h : ∀ i ∈ l, ¬ (0 < basis.getD i 0)) :
    l.foldl (nurbs_acc_step basis cps) a = a := by
  induction l generalizing a with
  | nil => rfl
  | cons x xs ih =>
    rw [List.foldl_cons,
      show nurbs_acc_step basis cps a x = a from by
        unfold nurbs_acc_step
        rw [if_neg (h x (List.mem_cons_self x xs))]]
    exact ih _ fun i hi => h i (List.mem_cons_of_mem x hi)

/-- Weighted-sum evaluation when the basis is an indicator: the result is
exactly the control point at the nonzero index. -/
lemma nurbs_point_theta_indicator (traj : Trajectory) (p : Nat) (u : ℝ)
    (hbf : basis_functions traj.degree traj.knot_vector u =
      some ((List.range traj.control_points.length).map
        fun j => if j = p then (1:ℝ) else 0))
    (hp : p < traj.control_points.length)
    (hw : ∀ cp ∈ traj.control_points, ∀ w, cp.weight = some w → 0 < w) :
    (nurbs_point_theta traj u).map (fun r => (r.1, r.2.1)) =
      (traj.control_points.get? p).map fun cp => (cp.x, cp.y) := by
  obtain ⟨cp, hcp⟩ : ∃ cp, traj.control_points.get? p = some cp :=
    ⟨_, List.get?_eq_get hp⟩
  have hmem : cp ∈ traj.control_points := List.get?_mem hcp
  have hwpos : 0 < cp.weight.getD 1 := by
    cases hcw : cp.weight with
    | none => norm_num
    | some w' => simpa using hw cp hmem w' hcw
  have hwne : cp.weight.getD 1 ≠ 0 := ne_of_gt hwpos
  unfold nurbs_point_theta
  rw [hbf]
  show (if _ then _ else none).map _ = _
  rw [if_pos (show ∀ i, i < ((List.range traj.control_points.length).map
      fun j => if j = p then (1:ℝ) else 0).length →
      0 < ((List.range traj.control_points.length).map
        fun j => if j = p then (1:ℝ) else 0).getD i 0 →
      i < traj.control_points.length from fun i hi _ => by simpa using hi)]
  rw [show ((List.range traj.control_points.length).map
      fun j => if j = p then (1:ℝ) else 0).length =
      traj.control_points.length from by simp]
  have hdecomp : List.range traj.control_points.length =
      (List.range' 0 p ++ [p]) ++
        List.range' (p + 1) (traj.control_points.length - (p + 1)) := by
    have happ := List.range'_append 0 (p + 1)
      (traj.control_points.length - (p + 1)) 1
    simp only [Nat.zero_add, Nat.one_mul] at happ
    rw [List.range_eq_range']
    conv_lhs => rw [show traj.control_points.length =
      (traj.control_points.length - (p + 1)) + (p + 1) from by omega]
    rw [← happ, List.range'_concat]
    simp
  have hfold : ∀ (g : NurbsAcc → Nat → NurbsAcc) (a : NurbsAcc),
      (List.range traj.control_points.length).foldl g a =
      ((List.range' 0 p ++ [p]) ++
        List.range' (p + 1)
          (traj.control_points.length - (p + 1))).foldl g a := by
    intro g a
    rw [hdecomp]
  rw [hfold, List.foldl_append, List.foldl_append]
  rw [nurbs_fold_skip _ _ (List.range' 0 p) _ (by
    intro i hi
    rw [List.mem_range'] at hi
    obtain ⟨c, hc, rfl⟩ := hi
    have hx : 0 + 1 * c = c := by omega
    have hy : ¬ (c = p) := by omega
    rw [indicator_basis_getD, hx]
    simp [hy])]
  rw [nurbs_fold_skip _ _ (List.range' (p + 1) _) _ (by
    intro i hi
    rw [List.mem_range'] at hi
    obtain ⟨c, hc, rfl⟩ := hi
    have hx : p + 1 + 1 * c = p + 1 + c := by omega
    have hy : ¬ (p + 1 + c = p) := by omega
    rw [indicator_basis_getD, hx]
    simp [hy])]
  simp only [List.foldl_cons, List.foldl_nil]
  rw [show nurbs_acc_step ((List.range traj.control_points.length).map
      fun j => if j = p then (1:ℝ) else 0) traj.control_points
      ⟨0, 0, 0, 0, 0, false⟩ p =
      (match cp.orientation with
       | some th => ⟨0 + cp.x * (1 * cp.weight.getD 1),
           0 + cp.y * (1 * cp.weight.getD 1),
           0 + th * (1 * cp.weight.getD 1), 0 + 1 * cp.weight.getD 1,
           0 + 1 * cp.weight.getD 1, true⟩
       | none => ⟨0 + cp.x * (1 * cp.weight.getD 1),
           0 + cp.y * (1 * cp.weight.getD 1), 0,
           0 + 1 * cp.weight.getD 1, 0, false⟩ : NurbsAcc) from by
    unfold nurbs_acc_step
    rw [indicator_basis_getD, if_pos hp, if_pos rfl, if_pos (by norm_num),
      hcp]]
  rw [hcp]
  have hx : ∀ z : ℝ,
      (0 + z * (1 * cp.weight.getD 1)) / (0 + 1 * cp.weight.getD 1) = z :=
    fun z => by
      rw [show (0:ℝ) + z * (1 * cp.weight.getD 1) = z * cp.weight.getD 1
          from by ring,
        show (0:ℝ) + 1 * cp.weight.getD 1 = cp.weight.getD 1 from by ring]
      exact mul_div_cancel_right₀ z hwne
  cases cp.orientation with
  | none =>
    simp only []
    rw [if_pos (show (0:ℝ) < 0 + 1 * cp.weight.getD 1 from by
      simpa using hwpos)]
    simp only [Option.map_some', Option.some.injEq, Prod.mk.injEq]
    exact ⟨hx cp.x, hx cp.y⟩
  | some th =>
    simp only []
    rw [if_pos (show (0:ℝ) < 0 + 1 * cp.weight.getD 1 from by
      simpa using hwpos)]
    simp only [Option.map_some', Option.some.injEq, Prod.mk.injEq]
    exact ⟨hx cp.x, hx cp.y⟩

/-- On a clamped knot vector, `basis_functions` succeeds for every
parameter below the final knot: the span search either finds a span below
`n` (a knot index at value 1 cannot satisfy `U[i] ≤ u`) or defaults to
`degree`, and both pass the bound checks. -/
lemma basis_functions_clamped_lt_one (d : Nat) (mid : List ℝ)
    (hd : 1 ≤ d) (u : ℝ) (hu : u < 1) :
    ∃ L, basis_functions d (clampedKnots d mid) u = some L ∧
      L.length = d + 1 + mid.length := by
  have hlen : (clampedKnots d mid).length = 2 * d + 2 + mid.length :=
    clampedKnots_length d mid
  have hlast : (clampedKnots d mid).getD
      ((clampedKnots d mid).length - 1) 0 = 1 := by
    rw [hlen]
    exact clampedKnots_hi d mid (by omega) (by omega)
  unfold basis_functions
  rw [if_neg (show ¬ ((clampedKnots d mid).length < d + 1) from by omega)]
  simp only [hlast]
  rw [if_neg (show ¬ ((1:ℝ) ≤ u ∧ (clampedKnots d mid).length < d + 2)
    from fun h => absurd h.2 (by omega))]
  rw [if_neg (not_le.mpr hu)]
  cases hfind : (List.range' d ((clampedKnots d mid).length - 1 - d)).find?
      (fun i => decide ((clampedKnots d mid).getD i 0 ≤ u ∧
        u < (clampedKnots d mid).getD (i + 1) 0)) with
  | none =>
    simp only [Option.getD_none]
    rw [if_neg (show ¬ ((clampedKnots d mid).length - d - 1 ≤ d) from by
      omega)]
    rw [if_neg (lt_irrefl d)]
    exact ⟨_, rfl, by simp; omega⟩
  | some i =>
    have hi1 : i ∈ List.range' d ((clampedKnots d mid).length - 1 - d) :=
      List.mem_of_find?_eq_some hfind
    rw [List.mem_range'] at hi1
    obtain ⟨c, hc, rfl⟩ := hi1
    have hpred := List.find?_some hfind
    simp only [decide_eq_true_eq] at hpred
    have hiln : d + 1 * c < (clampedKnots d mid).length - d - 1 := by
      by_contra hge
      have hval : (clampedKnots d mid).getD (d + 1 * c) 0 = 1 :=
        clampedKnots_hi d mid (by omega) (by omega)
      rw [hval] at hpred
      exact absurd hpred.1 (not_le.mpr hu)
    simp only [Option.getD_some]
    rw [if_neg (show ¬ ((clampedKnots d mid).length - d - 1 ≤ d + 1 * c)
      from by omega)]
    rw [if_neg (show ¬ (d + 1 * c < d) from by omega)]
    exact ⟨_, rfl, by simp; omega⟩

/-- On a clamped trajectory, the position evaluation succeeds for every
parameter below the final knot. -/
lemma nurbs_point_theta_clamped_some (traj : Trajectory) (mid : List ℝ)
    (hd : 1 ≤ traj.degree)
    (hU : traj.knot_vector = clampedKnots traj.degree mid)
    (hcp : traj.control_points.length =
      traj.knot_vector.length - traj.degree - 1)
    (u : ℝ) (hu : u < 1) :
    ∃ r, nurbs_point_theta traj u = some r := by
  have hN : traj.control_points.length =
      traj.degree + 1 + mid.length := by
    rw [hcp, hU, clampedKnots_length]
    omega
  obtain ⟨L, hL, hLlen⟩ :=
    basis_functions_clamped_lt_one traj.degree mid hd u hu
  exact ⟨_, by
    unfold nurbs_point_theta
    rw [hU, hL]
    exact if_pos (show ∀ i, i < L.length → 0 < L.getD i 0 →
      i < traj.control_points.length from fun i hi _ => by
        rw [hLlen] at hi
        omega)⟩

/-- Claim C6: NURBS evaluation (`evaluate_nurbs_with_tangent`) on a
clamped knot vector (first `d+1` knots 0, last `d+1` knots 1, interior
knots strictly inside (0,1), `|control_points| = |U| - d - 1`, positive
weights) reproduces the (x, y) of the first control point at `u = 0` and
of the last control point at `u = 1` (where the final-knot branch uses
span `n - 1`). -/
theorem nurbs_endpoint_evaluation (traj : Trajectory) (mid : List ℝ)
    (hd : 1 ≤ traj.degree)
    (hU : traj.knot_vector = clampedKnots traj.degree mid)
    (hmid : ∀ x ∈ mid, 0 < x ∧ x < 1)
    (hcp : traj.control_points.length =
      traj.knot_vector.length - traj.degree - 1)
    (hw : ∀ cp ∈ traj.control_points, ∀ w, cp.weight = some w → 0 < w) :
    (evaluate_nurbs_with_tangent traj 0).map (fun r => (r.1, r.2.1)) =
      traj.control_points.head?.map (fun cp => (cp.x, cp.y)) ∧
    (evaluate_nurbs_with_tangent traj 1).map (fun r => (r.1, r.2.1)) =
      traj.control_points.getLast?.map (fun cp => (cp.x, cp.y)) := by
  have hN : traj.control_points.length =
      traj.degree + 1 + mid.length := by
    rw [hcp, hU, clampedKnots_length]
    omega
  have h0 := nurbs_point_theta_indicator traj 0 0 (by
    rw [hU, hN]
    exact basis_functions_clamped_zero traj.degree mid hd hmid)
    (by omega) hw
  have h1 := nurbs_point_theta_indicator traj
    (traj.control_points.length - 1) 1 (by
    rw [hU, hN, show traj.degree + 1 + mid.length - 1 =
      traj.degree + mid.length from by omega]
    exact basis_functions_clamped_one traj.degree mid hd hmid)
    (by omega) hw
  obtain ⟨r0, hr0⟩ : ∃ r, nurbs_point_theta traj 0 = some r := by
    cases hx : nurbs_point_theta traj 0 with
    | none =>
      rw [hx] at h0
      rw [List.get?_eq_get (show 0 < traj.control_points.length from by
        omega)] at h0
      cases h0
    | some r => exact ⟨r, rfl⟩
  obtain ⟨r1, hr1⟩ : ∃ r, nurbs_point_theta traj 1 = some r := by
    cases hx : nurbs_point_theta traj 1 with
    | none =>
      rw [hx] at h1
      rw [List.get?_eq_get (show traj.control_points.length - 1 <
        traj.control_points.length from by omega)] at h1
      cases h1
    | some r => exact ⟨r, rfl⟩
  obtain ⟨rt, hrt⟩ : ∃ r,
      nurbs_point_theta traj (min ((0:ℝ) + 0.001) 1) = some r := by
    rw [show min ((0:ℝ) + 0.001) 1 = 0.001 from by norm_num [min_def]]
    exact nurbs_point_theta_clamped_some traj mid hd hU hcp 0.001
      (by norm_num)
  have h1tan : nurbs_point_theta traj (min ((1:ℝ) + 0.001) 1) = some r1 :=
    by rw [show min ((1:ℝ) + 0.001) 1 = 1 from by norm_num [min_def]]
       exact hr1
  rw [hr0] at h0
  rw [hr1] at h1
  obtain ⟨x0, y0, th0, hb0⟩ := r0
  obtain ⟨x1, y1, th1, hb1⟩ := r1
  obtain ⟨xt, yt, tht, hbt⟩ := rt
  constructor
  · rw [show traj.control_points.head? = traj.control_points.get? 0 from by
      rw [List.get?_eq_getElem?, List.head?_eq_getElem?]]
    unfold evaluate_nurbs_with_tangent
    rw [hr0, hrt]
    exact h0
  · rw [show traj.control_points.getLast? =
      traj.control_points.get? (traj.control_points.length - 1) from by
      rw [List.get?_eq_getElem?, List.getLast?_eq_getElem?]]
    unfold evaluate_nurbs_with_tangent
    rw [hr1, h1tan]
    exact h1

/-- Claim C6 witness: on the concrete clamped degree-1 trajectory from
(0,0) to (10,0), evaluation at 0 gives (0,0) and at 1 gives (10,0). -/
theorem nurbs_endpoint_evaluation_w :
    (evaluate_nurbs_with_tangent lineTraj 0).map (fun r => (r.1, r.2.1)) =
      some (0, 0) ∧
    (evaluate_nurbs_with_tangent lineTraj 1).map (fun r => (r.1, r.2.1)) =
      some (10, 0) := by
  obtain ⟨h0, h1⟩ := nurbs_endpoint_evaluation lineTraj []
    (by norm_num [lineTraj])
    (by simp [lineTraj, clampedKnots, List.replicate])
    (by simp)
    (by simp [lineTraj])
    (by intro cp hcp w hw
        simp [lineTraj] at hcp
        rcases hcp with h | h <;> rw [h] at hw <;> simp at hw)
  refine ⟨?_, ?_⟩
  · rw [h0]
    rfl
  · rw [h1]
    rfl

end VdaSim
